import Mathlib

/-!
Shallow embedding of the spread-composition core of the
sheet-base-pdf-arranger repository: `drawCutMarks.js`, `drawMiddleMarks.js`
and `createSpreadPage.js`.  Coordinates are modelled as rationals; the
pdf-lib primitives (`addPage`, `drawPage`, `drawLine`) are modelled as
trace constructors recorded on a page, so that every placement and every
line-draw call of the JavaScript code appears, in order, in the page's
operation list.
-/

namespace SheetBase

/-- An rgb colour, as produced by pdf-lib's `rgb(r, g, b)`. -/
structure Color where
  r : ℚ
  g : ℚ
  b : ℚ
deriving DecidableEq, Repr

/-- Embedding of pdf-lib's `rgb` constructor. -/
def rgb (r g b : ℚ) : Color := ⟨r, g, b⟩

/-- A 2D point `{x, y}`. -/
structure Point where
  x : ℚ
  y : ℚ
deriving DecidableEq, Repr

/-- A line segment as passed to `page.drawLine`: start point, end point,
stroke thickness and colour. -/
structure Line where
  start : Point
  stop : Point
  thickness : ℚ
  color : Color
deriving DecidableEq, Repr

/-- One mutation performed on a page: either `page.drawPage(ref, {x, y,
width, height})` (placement of previously embedded content, the ref kept
as an opaque handle) or `page.drawLine(l)`. -/
inductive PageOp where
  | drawPage (ref : ℕ) (x y width height : ℚ)
  | drawLine (l : Line)
deriving DecidableEq, Repr

/-- A page: its size as given to `doc.addPage([width, height])` plus the
ordered trace of draw operations performed on it. -/
structure Page where
  width : ℚ
  height : ℚ
  ops : List PageOp
deriving DecidableEq, Repr

/-- A document: the ordered list of its pages. -/
structure PDFDocument where
  pages : List Page
deriving DecidableEq, Repr

/-- Embedding of `drawCutMarks(page, width, height, bleed)` from
`drawCutMarks.js`.  The local helper `drawLine(x1, y1, x2, y2)` of the
source becomes a line value; the function returns the eight line-draw
calls in source order (bottom-left, bottom-right, top-left, top-right,
horizontal before vertical in each corner). -/
def drawCutMarks (width height bleed : ℚ) : List Line :=
  let drawLine := fun (x1 y1 x2 y2 : ℚ) =>
    Line.mk (Point.mk x1 y1) (Point.mk x2 y2) 1 (rgb 0 0 0)
  [ drawLine (bleed - 10) (bleed + 7) bleed (bleed + 7),
    drawLine (bleed + 7) (bleed - 10) (bleed + 7) bleed,
    drawLine (width - bleed) (bleed + 7) (width - bleed + 10) (bleed + 7),
    drawLine (width - bleed - 7) (bleed - 10) (width - bleed - 7) bleed,
    drawLine (bleed - 10) (height - bleed - 16) (bleed + 1) (height - bleed - 16),
    drawLine (bleed + 7) (height - bleed - 10) (bleed + 7) (height - bleed),
    drawLine (width - bleed - 2) (height - bleed - 16) (width - bleed + 9) (height - bleed - 16),
    drawLine (width - bleed - 8) (height - bleed - 9) (width - bleed - 8) (height - bleed + 1) ]

/-- The options object taken by `drawMiddleMarks`, with the source's
default values for `extraGutter`, `offset1` and `offset2`. -/
structure MiddleOptions where
  imgWidth : ℚ
  bleed : ℚ
  finalHeight : ℚ
  extraGutter : ℚ := 0
  offset1 : ℚ := -1
  offset2 : ℚ := 30
deriving DecidableEq, Repr

/-- Embedding of `drawMiddleMarks(page, options)` from
`drawMiddleMarks.js`: computes `centerX1`, `centerX2`, `centerX3` exactly
as the source does (the latter two are bound but never used by the draw
calls, as in the source) and returns the two vertical line-draw calls,
each of the form `drawLine(x, y1, y2)` with thickness 1 and colour
black. -/
def drawMiddleMarks (options : MiddleOptions) : List Line :=
  let centerX1 := options.imgWidth + options.bleed + options.offset1
  let centerX2 := options.imgWidth + options.bleed + options.extraGutter
  let centerX3 := options.imgWidth + options.bleed + options.offset2
  let drawLine := fun (x y1 y2 : ℚ) =>
    Line.mk (Point.mk x y1) (Point.mk x y2) 1 (rgb 0 0 0)
  let _ := centerX2
  let _ := centerX3
  [ drawLine (centerX1 + 1) (options.bleed - 10) options.bleed,
    drawLine (centerX1 + 1) (options.finalHeight - options.bleed - 10)
      (options.finalHeight - options.bleed) ]

/-- The options object taken by `createSpreadPage`: optional left/right
embedded-page refs (opaque handles) and the spread geometry, with the
source's default `extraGutter = 0`. -/
structure SpreadOptions where
  leftPage : Option ℕ
  rightPage : Option ℕ
  width : ℚ
  height : ℚ
  marginX : ℚ
  marginY : ℚ
  imgWidth : ℚ
  imgHeight : ℚ
  bleed : ℚ
  extraGutter : ℚ := 0
deriving DecidableEq, Repr

/-- Embedding of `createSpreadPage(doc, options)` from
`createSpreadPage.js`: adds a page of size `[width, height]` to the
document; if `leftPage` is present draws it at `(marginX, marginY)` sized
`(imgWidth, imgHeight)`; if `rightPage` is present draws it at
`(marginX + imgWidth, marginY)` with the same size; then runs
`drawCutMarks(page, width, height, bleed)` and `drawMiddleMarks(page,
{imgWidth, bleed, finalHeight: height, extraGutter})` (no `offset1` or
`offset2` passed, so their defaults apply).  Returns the updated document
together with the page the source returns. -/
def createSpreadPage (doc : PDFDocument) (o : SpreadOptions) :
    PDFDocument × Page :=
  let leftOps : List PageOp :=
    match o.leftPage with
    | some ref => [PageOp.drawPage ref o.marginX o.marginY o.imgWidth o.imgHeight]
    | none => []
  let rightOps : List PageOp :=
    match o.rightPage with
    | some ref =>
        [PageOp.drawPage ref (o.marginX + o.imgWidth) o.marginY o.imgWidth o.imgHeight]
    | none => []
  let cutOps : List PageOp :=
    (drawCutMarks o.width o.height o.bleed).map PageOp.drawLine
  let middleOps : List PageOp :=
    (drawMiddleMarks
      { imgWidth := o.imgWidth, bleed := o.bleed, finalHeight := o.height,
        extraGutter := o.extraGutter }).map PageOp.drawLine
  let page : Page :=
    { width := o.width, height := o.height,
      ops := leftOps ++ rightOps ++ cutOps ++ middleOps }
  ({ pages := doc.pages ++ [page] }, page)

/-- The placements (`drawPage` calls) recorded on a page, in order, each
as `(ref, x, y, width, height)`. -/
def placements (p : Page) : List (ℕ × ℚ × ℚ × ℚ × ℚ) :=
  p.ops.filterMap fun op =>
    match op with
    | PageOp.drawPage ref x y w h => some (ref, x, y, w, h)
    | PageOp.drawLine _ => none

/-- The line segments (`drawLine` calls) recorded on a page, in order. -/
def lineOps (p : Page) : List Line :=
  p.ops.filterMap fun op =>
    match op with
    | PageOp.drawPage _ _ _ _ _ => none
    | PageOp.drawLine l => some l

end SheetBase

namespace SheetBase

/-- The rectangle of an image placement, as an axis-aligned box. -/
structure Rect where
  x : ℚ
  y : ℚ
  width : ℚ
  height : ℚ
deriving DecidableEq, Repr

/-- The rectangle of a recorded placement `(ref, x, y, width, height)`. -/
def placementRect (p : ℕ × ℚ × ℚ × ℚ × ℚ) : Rect :=
  ⟨p.2.1, p.2.2.1, p.2.2.2.1, p.2.2.2.2⟩

/-- Two rectangles overlap when some point lies strictly inside both
(abutting rectangles that share only an edge do not overlap). -/
def rectsOverlap (a b : Rect) : Prop :=
  ∃ px py : ℚ,
    a.x < px ∧ px < a.x + a.width ∧ a.y < py ∧ py < a.y + a.height ∧
    b.x < px ∧ px < b.x + b.width ∧ b.y < py ∧ py < b.y + b.height

/-- The fixed cut-mark offset table of spec section 4.2, written from the
spec's words: per corner a horizontal then a vertical segment, each with
stroke width 1 and colour black. -/
def cutMarkTable (width height bleed : ℚ) : List Line :=
  let seg := fun (x1 y1 x2 y2 : ℚ) =>
    Line.mk (Point.mk x1 y1) (Point.mk x2 y2) 1 (rgb 0 0 0)
  [ seg (bleed - 10) (bleed + 7) bleed (bleed + 7),
    seg (bleed + 7) (bleed - 10) (bleed + 7) bleed,
    seg (width - bleed) (bleed + 7) (width - bleed + 10) (bleed + 7),
    seg (width - bleed - 7) (bleed - 10) (width - bleed - 7) bleed,
    seg (bleed - 10) (height - bleed - 16) (bleed + 1) (height - bleed - 16),
    seg (bleed + 7) (height - bleed - 10) (bleed + 7) (height - bleed),
    seg (width - bleed - 2) (height - bleed - 16) (width - bleed + 9) (height - bleed - 16),
    seg (width - bleed - 8) (height - bleed - 9) (width - bleed - 8) (height - bleed + 1) ]

end SheetBase

namespace SheetBase

/-- Claim C1: for every width, height, bleed with bleed nonnegative and
width, height greater than twice the bleed, `drawCutMarks` draws exactly
8 line segments whose start and end coordinates equal, segment by
segment, the fixed offset table of spec section 4.2, each with stroke
width 1 and colour black. -/
theorem drawCutMarks_matches_table (width height bleed : ℚ)
    (hb : 0 ≤ bleed) (hw : 2 * bleed < width) (hh : 2 * bleed < height) :
    drawCutMarks width height bleed = cutMarkTable width height bleed ∧
    (drawCutMarks width height bleed).length = 8 ∧
    ∀ l ∈ drawCutMarks width height bleed, l.thickness = 1 ∧ l.color = rgb 0 0 0 := by
  refine ⟨rfl, rfl, ?_⟩
  intro l hl
  simp only [drawCutMarks, List.mem_cons, List.not_mem_nil, or_false] at hl
  rcases hl with rfl | rfl | rfl | rfl | rfl | rfl | rfl | rfl <;> exact ⟨rfl, rfl⟩

/-- Witness for C1 at width = 100, height = 80, bleed = 5. -/
theorem drawCutMarks_matches_table_witness :
    (0 : ℚ) ≤ 5 ∧ 2 * 5 < (100 : ℚ) ∧ 2 * 5 < (80 : ℚ) ∧
    (drawCutMarks 100 80 5 = cutMarkTable 100 80 5 ∧
      (drawCutMarks 100 80 5).length = 8 ∧
      ∀ l ∈ drawCutMarks 100 80 5, l.thickness = 1 ∧ l.color = rgb 0 0 0) :=
  ⟨by norm_num, by norm_num, by norm_num,
    drawCutMarks_matches_table 100 80 5 (by norm_num) (by norm_num) (by norm_num)⟩

/-- Claim C2: for every input, `drawMiddleMarks` draws exactly two
vertical segments, both at x = imgWidth + bleed + offset1 + 1, one from
(x, bleed − 10) to (x, bleed) and one from (x, finalHeight − bleed − 10)
to (x, finalHeight − bleed); the drawn positions do not depend on
extraGutter or offset2. -/
theorem drawMiddleMarks_spec (o : MiddleOptions) :
    drawMiddleMarks o =
      [ Line.mk (Point.mk (o.imgWidth + o.bleed + o.offset1 + 1) (o.bleed - 10))
          (Point.mk (o.imgWidth + o.bleed + o.offset1 + 1) o.bleed) 1 (rgb 0 0 0),
        Line.mk
          (Point.mk (o.imgWidth + o.bleed + o.offset1 + 1) (o.finalHeight - o.bleed - 10))
          (Point.mk (o.imgWidth + o.bleed + o.offset1 + 1) (o.finalHeight - o.bleed))
          1 (rgb 0 0 0) ] ∧
    (drawMiddleMarks o).length = 2 ∧
    ∀ g p : ℚ,
      drawMiddleMarks { o with extraGutter := g, offset2 := p } = drawMiddleMarks o :=
  ⟨rfl, rfl, fun _ _ => rfl⟩

/-- Claim C3: whenever both refs are present, `createSpreadPage` places
the left ref at (marginX, marginY) sized (imgWidth, imgHeight) and the
right ref at (marginX + imgWidth, marginY) with the same size, so the
right placement's x is the left placement's x plus imgWidth with no
gap. -/
theorem createSpreadPage_both_placements (doc : PDFDocument) (o : SpreadOptions)
    (l r : ℕ) (hl : o.leftPage = some l) (hr : o.rightPage = some r) :
    placements (createSpreadPage doc o).2 =
      [ (l, o.marginX, o.marginY, o.imgWidth, o.imgHeight),
        (r, o.marginX + o.imgWidth, o.marginY, o.imgWidth, o.imgHeight) ] := by
  simp [createSpreadPage, placements, hl, hr, drawCutMarks, drawMiddleMarks]

/-- Witness for C3: both refs present on concrete geometry. -/
theorem createSpreadPage_both_placements_witness :
    placements (createSpreadPage ⟨[]⟩
      { leftPage := some 0, rightPage := some 1, width := 100, height := 80,
        marginX := 4, marginY := 5, imgWidth := 40, imgHeight := 60,
        bleed := 3 }).2 =
      [ (0, 4, 5, 40, 60), (1, 4 + 40, 5, 40, 60) ] :=
  createSpreadPage_both_placements ⟨[]⟩
    { leftPage := some 0, rightPage := some 1, width := 100, height := 80,
      marginX := 4, marginY := 5, imgWidth := 40, imgHeight := 60,
      bleed := 3 } 0 1 rfl rfl

/-- Claim C4: with the right ref absent `createSpreadPage` issues no
right-side placement call (the placement trace holds at most the left
placement), and symmetrically with the left ref absent; an absent ref is
a valid input, not an error. -/
theorem createSpreadPage_absent_side (doc : PDFDocument) (o : SpreadOptions) :
    (o.rightPage = none →
      placements (createSpreadPage doc o).2 =
        (o.leftPage.map fun l =>
          (l, o.marginX, o.marginY, o.imgWidth, o.imgHeight)).toList) ∧
    (o.leftPage = none →
      placements (createSpreadPage doc o).2 =
        (o.rightPage.map fun r =>
          (r, o.marginX + o.imgWidth, o.marginY, o.imgWidth, o.imgHeight)).toList) := by
  constructor
  · intro hr
    cases hL : o.leftPage <;>
      simp [createSpreadPage, placements, hr, hL, drawCutMarks, drawMiddleMarks]
  · intro hl
    cases hR : o.rightPage <;>
      simp [createSpreadPage, placements, hl, hR, drawCutMarks, drawMiddleMarks]

/-- Witness for C4: both refs absent, no placement call at all. -/
theorem createSpreadPage_absent_side_witness :
    placements (createSpreadPage ⟨[]⟩
      { leftPage := none, rightPage := none, width := 100, height := 80,
        marginX := 4, marginY := 5, imgWidth := 40, imgHeight := 60,
        bleed := 3 }).2 = [] ∧
    placements (createSpreadPage ⟨[]⟩
      { leftPage := none, rightPage := none, width := 100, height := 80,
        marginX := 4, marginY := 5, imgWidth := 40, imgHeight := 60,
        bleed := 3 }).2 = [] :=
  ⟨(createSpreadPage_absent_side ⟨[]⟩
      { leftPage := none, rightPage := none, width := 100, height := 80,
        marginX := 4, marginY := 5, imgWidth := 40, imgHeight := 60,
        bleed := 3 }).1 rfl,
    (createSpreadPage_absent_side ⟨[]⟩
      { leftPage := none, rightPage := none, width := 100, height := 80,
        marginX := 4, marginY := 5, imgWidth := 40, imgHeight := 60,
        bleed := 3 }).2 rfl⟩

end SheetBase

namespace SheetBase

/-- Claim C5: `createSpreadPage` adds exactly one page of size
(width, height) to the document, leaves the document's other pages
untouched, returns that same appended page, and that page carries at
most two image placements and exactly 10 line segments (8 cut marks plus
2 gutter marks). -/
theorem createSpreadPage_frame (doc : PDFDocument) (o : SpreadOptions) :
    (createSpreadPage doc o).1.pages = doc.pages ++ [(createSpreadPage doc o).2] ∧
    (createSpreadPage doc o).2.width = o.width ∧
    (createSpreadPage doc o).2.height = o.height ∧
    (placements (createSpreadPage doc o).2).length ≤ 2 ∧
    (lineOps (createSpreadPage doc o).2).length = 10 := by
  refine ⟨rfl, rfl, rfl, ?_, ?_⟩ <;>
    cases hL : o.leftPage <;> cases hR : o.rightPage <;>
      simp [createSpreadPage, placements, lineOps, hL, hR,
        drawCutMarks, drawMiddleMarks]

/-- The concrete scenario input of spec section 8: width 1224, height
792, marginX 36, marginY 36, imgWidth 576, imgHeight 720, bleed 18,
extraGutter 0, both refs present. -/
def scenarioOptions : SpreadOptions :=
  { leftPage := some 0, rightPage := some 1, width := 1224, height := 792,
    marginX := 36, marginY := 36, imgWidth := 576, imgHeight := 720,
    bleed := 18, extraGutter := 0 }

/-- Claim C6: on the scenario input with both refs present, the
resulting page has size 1224 by 792, two image placements at x = 36 and
x = 612, exactly 10 line segments, and both gutter segments at
x = 594. -/
theorem createSpreadPage_scenario :
    (createSpreadPage ⟨[]⟩ scenarioOptions).2.width = 1224 ∧
    (createSpreadPage ⟨[]⟩ scenarioOptions).2.height = 792 ∧
    (placements (createSpreadPage ⟨[]⟩ scenarioOptions).2).map
      (fun p => p.2.1) = [36, 612] ∧
    (lineOps (createSpreadPage ⟨[]⟩ scenarioOptions).2).length = 10 ∧
    ((lineOps (createSpreadPage ⟨[]⟩ scenarioOptions).2).drop 8).map
      (fun l => l.start.x) = [594, 594] ∧
    ((lineOps (createSpreadPage ⟨[]⟩ scenarioOptions).2).drop 8).map
      (fun l => l.stop.x) = [594, 594] := by
  refine ⟨rfl, rfl, ?_, ?_, ?_, ?_⟩ <;>
    simp [createSpreadPage, scenarioOptions, placements, lineOps,
      drawCutMarks, drawMiddleMarks] <;> norm_num

/-- Claim C7: the composition is deterministic: two calls with identical
spread options, each on its own document, produce identical pages, hence
identical sequences of placement and line-draw calls. -/
theorem createSpreadPage_deterministic (doc1 doc2 : PDFDocument)
    (o : SpreadOptions) :
    (createSpreadPage doc1 o).2 = (createSpreadPage doc2 o).2 ∧
    (createSpreadPage doc1 o).2.ops = (createSpreadPage doc2 o).2.ops :=
  ⟨rfl, rfl⟩

/-- Claim C8: with both refs present the two placement rectangles
(marginX, marginY, imgWidth, imgHeight) and (marginX + imgWidth,
marginY, imgWidth, imgHeight) do not overlap, for every value of
imgWidth (no point lies strictly inside both). -/
theorem createSpreadPage_no_overlap (doc : PDFDocument) (o : SpreadOptions)
    (l r : ℕ) (hl : o.leftPage = some l) (hr : o.rightPage = some r) :
    (placements (createSpreadPage doc o).2).map placementRect =
      [ Rect.mk o.marginX o.marginY o.imgWidth o.imgHeight,
        Rect.mk (o.marginX + o.imgWidth) o.marginY o.imgWidth o.imgHeight ] ∧
    ¬ rectsOverlap (Rect.mk o.marginX o.marginY o.imgWidth o.imgHeight)
        (Rect.mk (o.marginX + o.imgWidth) o.marginY o.imgWidth o.imgHeight) := by
  constructor
  · simp [createSpreadPage, placements, placementRect, hl, hr,
      drawCutMarks, drawMiddleMarks]
  · rintro ⟨px, py, h1, h2, h3, h4, h5, h6, h7, h8⟩
    exact lt_irrefl px (h2.trans h5)

/-- Witness for C8 on concrete geometry with both refs present. -/
theorem createSpreadPage_no_overlap_witness :
    (placements (createSpreadPage ⟨[]⟩
      { leftPage := some 2, rightPage := some 3, width := 100, height := 80,
        marginX := 4, marginY := 5, imgWidth := 40, imgHeight := 60,
        bleed := 3 }).2).map placementRect =
      [ Rect.mk 4 5 40 60, Rect.mk (4 + 40) 5 40 60 ] ∧
    ¬ rectsOverlap (Rect.mk 4 5 40 60) (Rect.mk (4 + 40) 5 40 60) :=
  createSpreadPage_no_overlap ⟨[]⟩
    { leftPage := some 2, rightPage := some 3, width := 100, height := 80,
      marginX := 4, marginY := 5, imgWidth := 40, imgHeight := 60,
      bleed := 3 } 2 3 rfl rfl

/-- Claim C9: for every numeric input, including negative or zero sizes,
bleed and margins, composition runs to completion with no validation:
the page trace always holds one placement per present ref plus exactly
10 line segments, and exactly one page is added to the document,
independently of the numeric values. -/
theorem createSpreadPage_trace_shape (doc : PDFDocument) (o : SpreadOptions) :
    (createSpreadPage doc o).2.ops.length =
      (if o.leftPage.isSome then 1 else 0) +
      (if o.rightPage.isSome then 1 else 0) + 10 ∧
    (lineOps (createSpreadPage doc o).2).length = 10 ∧
    (placements (createSpreadPage doc o).2).length =
      (if o.leftPage.isSome then 1 else 0) +
      (if o.rightPage.isSome then 1 else 0) ∧
    (createSpreadPage doc o).1.pages.length = doc.pages.length + 1 := by
  cases hL : o.leftPage <;> cases hR : o.rightPage <;>
    simp [createSpreadPage, placements, lineOps, hL, hR,
      drawCutMarks, drawMiddleMarks]

/-- Claim C10: through `createSpreadPage` the offset1 and offset2
parameters of `drawMiddleMarks` are never passed, so offset1 keeps its
default of minus one and the plus-one shift cancels it: both gutter
segments sit at exactly x = imgWidth + bleed. -/
theorem createSpreadPage_gutter_x (doc : PDFDocument) (o : SpreadOptions) :
    ((lineOps (createSpreadPage doc o).2).drop 8).map
      (fun l => (l.start.x, l.stop.x)) =
      [ (o.imgWidth + o.bleed, o.imgWidth + o.bleed),
        (o.imgWidth + o.bleed, o.imgWidth + o.bleed) ] := by
  cases hL : o.leftPage <;> cases hR : o.rightPage <;>
    simp [createSpreadPage, lineOps, hL, hR, drawCutMarks, drawMiddleMarks]

end SheetBase
